import Mathlib

/-!
Verification development for the TicketmasterAlert script (`main.py`).

The script scrapes a ticket-resale page, parses availability and price
texts, aggregates them into a run summary, conditionally sends
Pushbullet notifications, and appends one row to a CSV log.  This file
gives a shallow embedding of that logic: Python strings become
`List Char`-based operations, Python numbers become `ℤ`/`ℚ`, fallible
operations return `Option`/`Except`, and the side effects of one run
(notification calls, the CSV file) are made explicit values.
-/

/-! ## Python string primitives

The script uses `str.replace`, `str.lower`, `str.strip`, the `in`
substring test, `int(...)` and `float(...)`.  We model each over
`List Char` so that every definition reduces in the kernel. -/

/-- Model of Python `str.replace`: replace all non-overlapping occurrences
of `pat` left to right.  Fuel-structured; callers pass the string length
as fuel, which suffices because each step consumes at least one character. -/
def replaceAux (pat rep : List Char) : ℕ → List Char → List Char
  | _, [] => []
  | 0, l => l
  | fuel + 1, c :: rest =>
    if !pat.isEmpty && ((c :: rest).take pat.length == pat) then
      rep ++ replaceAux pat rep fuel ((c :: rest).drop pat.length)
    else
      c :: replaceAux pat rep fuel rest

/-- Model of Python `s.replace(pat, rep)`. -/
def pyReplace (s pat rep : String) : String :=
  String.mk (replaceAux pat.toList rep.toList s.toList.length s.toList)

/-- Model of Python `s.lower()` (ASCII case folding suffices for the
unit words used by the script). -/
def pyLower (s : String) : String :=
  String.mk (s.toList.map Char.toLower)

/-- Model of Python `s.strip()`: drop whitespace from both ends. -/
def pyStrip (s : String) : String :=
  String.mk (((s.toList.dropWhile Char.isWhitespace).reverse.dropWhile
    Char.isWhitespace).reverse)

/-- Helper for the substring test: does `pat` occur starting at some
position of the second list? -/
def containsSubAux (pat : List Char) : List Char → Bool
  | [] => pat.isEmpty
  | c :: rest => ((c :: rest).take pat.length == pat) || containsSubAux pat rest

/-- Model of Python `pat in t` on strings (substring containment). -/
def containsSub (t pat : String) : Bool :=
  containsSubAux pat.toList t.toList

/-- Numeric value of a list of decimal digit characters (most significant
first), as read by Python `int`/`float` on a digit run. -/
def digitsToNat (cs : List Char) : ℕ :=
  cs.foldl (fun a c => 10 * a + (c.toNat - 48)) 0

/-- Split a leading sign character off a numeric literal. Returns
(negative?, remainder). -/
def splitSign : List Char → Bool × List Char
  | '-' :: r => (true, r)
  | '+' :: r => (false, r)
  | r => (false, r)

/-- Model of Python `int(s)`: an optional sign followed by one or more
decimal digits; anything else raises `ValueError`, modelled as `none`. -/
def pyInt? (s : String) : Option ℤ :=
  let p := splitSign s.toList
  if !p.2.isEmpty && p.2.all Char.isDigit then
    some ((if p.1 then -1 else 1) * (digitsToNat p.2 : ℤ))
  else none

/-- Syntactic decomposition used by the model of Python `float(s)`:
an optional sign, an integer digit run, and an optional single decimal
point followed by a fraction digit run, with at least one digit overall.
Returns (negative?, integer digits, fraction digits), or `none` on any
other shape (e.g. a second decimal point).  Exponent and `inf`/`nan`
forms, which never arise from the scraped price texts, are not modelled. -/
def decomposeFloat (cs : List Char) : Option (Bool × List Char × List Char) :=
  let p := splitSign cs
  let ip := p.2.takeWhile Char.isDigit
  let rest := p.2.dropWhile Char.isDigit
  match rest with
  | [] => if ip.isEmpty then none else some (p.1, ip, [])
  | '.' :: fp =>
    if fp.all Char.isDigit && !(ip.isEmpty && fp.isEmpty) then
      some (p.1, ip, fp)
    else none
  | _ => none

/-- Rational value of a decomposed decimal literal. -/
def ratOfParts (neg : Bool) (ip fp : List Char) : ℚ :=
  (if neg then -1 else 1) * ((digitsToNat ip : ℚ) + (digitsToNat fp : ℚ) / 10 ^ fp.length)

/-- Model of Python `float(s)` on decimal literals; `none` models
`ValueError`. -/
def pyFloat? (s : String) : Option ℚ :=
  (decomposeFloat s.toList).map (fun p => ratOfParts p.1 p.2.1 p.2.2)

/-! ## Field parsers (main.py lines 80-83) -/

/-- Availability parsing, from
`int(availability_text.lower().replace('beschikbaar', '').strip())`.
`none` models the uncaught `ValueError`. -/
def parseAvailability (s : String) : Option ℤ :=
  pyInt? (pyStrip (pyReplace (pyLower s) "beschikbaar" ""))

/-- Price parsing, from
`float(price_text.replace('€', '').replace('per stuk', '').replace(',', '.').strip())`.
`none` models the uncaught `ValueError`. -/
def parsePrice (s : String) : Option ℚ :=
  pyFloat? (pyStrip (pyReplace (pyReplace (pyReplace s "€" "") "per stuk" "") "," "."))

/-! ## Data model -/

/-- One scraped ticket record (`ticket_info` dict, main.py lines 84-89). -/
structure TicketListing where
  type : String
  availability : ℤ
  category : String
  price : ℚ
deriving DecidableEq, Inhabited, Repr

/-- One listing container found on the page; its `spans` are the inner
texts of the `span` elements, in document order (main.py line 78). -/
structure Container where
  spans : List String
deriving DecidableEq, Repr

/-! ## Ticket extractor loop (main.py lines 77-90)

The `for container in ticket_containers` loop appends one record per
well-formed container.  A `ValueError` from `int(...)` or `float(...)`
escapes the loop, is caught by the outer `except Exception`, and the
`finally` block returns the records accumulated so far.  We model the
loop as a recursion that, on the first parse failure, contributes
nothing and stops examining further containers. -/

/-- The scraping loop body.  Containers with a span count other than 4
are silently skipped; a parse failure aborts the whole loop, returning
the listings assembled so far. -/
def extractLoop : List Container → List TicketListing
  | [] => []
  | c :: rest =>
    if c.spans.length = 4 then
      match parseAvailability (c.spans.getD 1 "") with
      | none => []
      | some a =>
        match parsePrice (c.spans.getD 3 "") with
        | none => []
        | some p =>
          { type := c.spans.getD 0 "", availability := a,
            category := c.spans.getD 2 "", price := p } :: extractLoop rest
    else extractLoop rest

/-- A container the loop processes without raising: either it is skipped
for not having exactly 4 spans, or both its fields parse. -/
def containerOk (c : Container) : Bool :=
  (c.spans.length != 4) ||
    ((parseAvailability (c.spans.getD 1 "")).isSome &&
     (parsePrice (c.spans.getD 3 "")).isSome)

/-- A container on which the loop raises: it has exactly 4 spans but its
availability text, or (availability parsing succeeding) its price text,
fails to parse. -/
def containerFails (c : Container) : Bool :=
  (c.spans.length == 4) &&
    ((parseAvailability (c.spans.getD 1 "")).isNone ||
     (parsePrice (c.spans.getD 3 "")).isNone)

/-! ## Summarizer (main.py lines 124-153)

Python `sorted(key=price)` is a stable ascending sort; we use
`List.insertionSort`, which is also stable and ascending.  The `'N/A'`
markers and the internal `float('inf')` sentinel for `cheapest_price`
(which the summary dict converts back to `'N/A'`) are modelled uniformly
as `none`; a genuine price can never be the infinity sentinel since
prices are finite decimals produced by `parsePrice`. -/

/-- Python `sorted(scraped_info, key=lambda x: x['price'])`. -/
def sortedByPrice (l : List TicketListing) : List TicketListing :=
  List.insertionSort (fun a b => a.price ≤ b.price) l

/-- Round-half-to-even on an exact rational, the tie-breaking rule of
Python `round`. -/
def roundHalfEven (q : ℚ) : ℤ :=
  if q - ⌊q⌋ < 1 / 2 then ⌊q⌋
  else if q - ⌊q⌋ > 1 / 2 then ⌊q⌋ + 1
  else if ⌊q⌋ % 2 = 0 then ⌊q⌋ else ⌊q⌋ + 1

/-- Model of Python `round(x, 2)` on the exact rational value. -/
def pyRound2 (q : ℚ) : ℚ :=
  (roundHalfEven (q * 100) : ℚ) / 100

/-- The per-run summary (`summary_data` dict minus the timestamp, which
the log row carries separately). Absent values (`'N/A'`) are `none`. -/
structure RunSummary where
  listings_found : ℕ
  total_available_tickets : ℤ
  cheapest_price : Option ℚ
  price_5th_cheapest : Option ℚ
  price_10th_cheapest : Option ℚ
  most_expensive_price : Option ℚ
  average_price_10_cheapest : Option ℚ
  average_price_all_tickets : Option ℚ
deriving DecidableEq, Repr

/-- The summary computation of main.py lines 125-153, as a pure function
of the scraped list. -/
def summarize (l : List TicketListing) : RunSummary :=
  let st := sortedByPrice l
  { listings_found := l.length
  , total_available_tickets := (l.map (·.availability)).sum
  , cheapest_price := if 0 < st.length then (st[0]?).map (·.price) else none
  , price_5th_cheapest := if 5 ≤ st.length then (st[4]?).map (·.price) else none
  , price_10th_cheapest := if 10 ≤ st.length then (st[9]?).map (·.price) else none
  , most_expensive_price :=
      if 0 < st.length then (st[st.length - 1]?).map (·.price) else none
  , average_price_10_cheapest :=
      if 0 < st.length then
        some (pyRound2 (((st.take 10).map (·.price)).sum / ((st.take 10).length : ℚ)))
      else none
  , average_price_all_tickets :=
      if 0 < st.length then
        some (pyRound2 ((st.map (·.price)).sum / (st.length : ℚ)))
      else none }

/-! ## Notifier (main.py lines 11-33, `send_pushbullet_alert`) -/

/-- Result of one outbound Pushbullet POST: HTTP 200, another status
code, or a raised exception (caught inside the loop body). -/
inductive DeliveryResult where
  | success
  | httpError (code : ℕ) (body : String)
  | exception (msg : String)
deriving DecidableEq, Repr

/-- A token the loop actually posts to: not falsy (empty) and not
matching the placeholder pattern. -/
def validToken (t : String) : Bool :=
  !(t == "") && !(containsSub t "YOUR_PUSHBULLET_ACCESS_TOKEN")

/-- The tokens to which `send_pushbullet_alert` issues a network call,
in order: none when the list is empty (early return), otherwise exactly
the valid tokens. -/
def notifierCalls (tokens : List String) : List String :=
  match tokens with
  | [] => []
  | _ => tokens.filter validToken

/-- The notifier loop: given the delivery outcome of each token's POST
(the network is external, so outcomes are a parameter), the list of
attempted calls with their results.  The `try`/`except` inside the loop
body means an outcome never stops the iteration. -/
def notifierRun (outcome : String → DeliveryResult) (tokens : List String) :
    List (String × DeliveryResult) :=
  match tokens with
  | [] => []
  | _ => (tokens.filter validToken).map (fun t => (t, outcome t))

/-! ## Log appender (main.py lines 169-175)

CSV string mechanics are out of scope; a file is a list of abstract
lines, `none` standing for a file that does not exist yet. -/

/-- One line of the CSV log: the header, or one data row. -/
inductive CsvLine where
  | header
  | row (timestamp : String) (s : RunSummary)
deriving DecidableEq, Repr

/-- The append step: `writer.writeheader()` runs only when
`os.path.exists` was false before opening in append mode, then exactly
one data row is written. -/
def appendLog (file : Option (List CsvLine)) (ts : String) (s : RunSummary) :
    List CsvLine :=
  match file with
  | none => [CsvLine.header, CsvLine.row ts s]
  | some lines => lines ++ [CsvLine.row ts s]

/-! ## Token configuration (main.py lines 111-115)

`json.loads` is modelled for the shapes the configuration uses: a JSON
array of string literals.  Any input outside that grammar is `none`,
which in `loadTokens` becomes the uncaught exception the bare
`json.loads` call raises (there is no `try` around it). -/

/-- Drop JSON insignificant whitespace. -/
def skipWs (cs : List Char) : List Char :=
  cs.dropWhile (fun c => c == ' ' || c == '\t' || c == '\n' || c == '\r')

/-- Value of a JSON string escape character (the `\u` form is not
modelled; tokens never contain it). -/
def jsonEscChar (c : Char) : Char :=
  if c == 'n' then '\n'
  else if c == 't' then '\t'
  else if c == 'r' then '\r'
  else if c == 'b' then '\x08'
  else if c == 'f' then '\x0c'
  else c

/-- Parse the remainder of a JSON string literal after its opening
quote; returns the string and the input after the closing quote. -/
def jsonStrAux : List Char → List Char → Option (String × List Char)
  | [], _ => none
  | '"' :: rest, acc => some (String.mk acc.reverse, rest)
  | '\\' :: c :: rest, acc => jsonStrAux rest (jsonEscChar c :: acc)
  | '\\' :: [], _ => none
  | c :: rest, acc => jsonStrAux rest (c :: acc)

/-- Parse the items of a non-empty JSON array of strings, after the
opening bracket.  Fuel-structured; the input length plus one suffices. -/
def jsonItemsAux : ℕ → List Char → List String → Option (List String)
  | 0, _, _ => none
  | fuel + 1, cs, acc =>
    match skipWs cs with
    | '"' :: rest =>
      match jsonStrAux rest [] with
      | none => none
      | some (s, rest2) =>
        match skipWs rest2 with
        | ',' :: rest3 => jsonItemsAux fuel rest3 (s :: acc)
        | ']' :: rest4 =>
          if (skipWs rest4).isEmpty then some (s :: acc).reverse else none
        | _ => none
    | _ => none

/-- Model of `json.loads` restricted to JSON arrays of string literals,
the only shape `PUSHBULLET_TOKENS_JSON` is documented to hold.  `none`
models the `json.JSONDecodeError` raised on input that is not valid
JSON. -/
def parseJsonTokens (s : String) : Option (List String) :=
  match skipWs s.toList with
  | '[' :: rest =>
    match skipWs rest with
    | ']' :: rest2 => if (skipWs rest2).isEmpty then some [] else none
    | _ => jsonItemsAux (s.toList.length + 1) rest []
  | _ => none

/-- Token loading (main.py lines 111-115).  `env` is the value of
`os.environ.get('PUSHBULLET_TOKENS_JSON')`.  A falsy value (absent or
empty) yields the empty token list; otherwise `json.loads` runs with no
exception handler, so an unparsable value is an uncaught error that
terminates the process (`Except.error`). -/
def loadTokens (env : Option String) : Except Unit (List String) :=
  match env with
  | none => Except.ok []
  | some s =>
    if s = "" then Except.ok []
    else
      match parseJsonTokens s with
      | some l => Except.ok l
      | none => Except.error ()

/-! ## Orchestrator (main.py lines 117-181) -/

/-- The alert threshold `PRICE_ALERT_THRESHOLD = 300.0`. -/
def PRICE_ALERT_THRESHOLD : ℚ := 300

/-- Observable effects of one run, after the scrape. -/
structure RunOutcome where
  summary : Option RunSummary
  notifierInvoked : Bool
  notifications : List (String × DeliveryResult)
  file : Option (List CsvLine)
deriving Repr

/-- The `if scraped_info:` block of main.py lines 122-181.  On a
non-empty scrape it builds the summary, calls the notifier exactly when
the cheapest (first sorted) price is strictly below the threshold, and
appends one row to the CSV log; on an empty scrape it only prints a
message — no summary, no notification, no log write. -/
def mainRun (outcome : String → DeliveryResult) (tokens : List String)
    (scraped : List TicketListing) (ts : String) (file : Option (List CsvLine)) :
    RunOutcome :=
  match scraped with
  | [] =>
    { summary := none, notifierInvoked := false, notifications := [], file := file }
  | _ :: _ =>
    let st := sortedByPrice scraped
    let s := summarize scraped
    if st.headI.price < PRICE_ALERT_THRESHOLD then
      { summary := some s
      , notifierInvoked := true
      , notifications := notifierRun outcome tokens
      , file := some (appendLog file ts s) }
    else
      { summary := some s
      , notifierInvoked := false
      , notifications := []
      , file := some (appendLog file ts s) }

/-! ## Concrete fixtures -/

/-- A concrete listing used to instantiate the general theorems. -/
def stdListing : TicketListing :=
  { type := "Zitplaats", availability := 5, category := "Categorie 1", price := 50 }

/-- Ten concrete listings whose prices are exactly 1..10, in scraped
order 7, 3, 10, 1, 5, 8, 2, 9, 4, 6; used for the averages claim. -/
def tenListings : List TicketListing :=
  [⟨"t", 1, "c", 7⟩, ⟨"t", 1, "c", 3⟩, ⟨"t", 1, "c", 10⟩, ⟨"t", 1, "c", 1⟩,
   ⟨"t", 1, "c", 5⟩, ⟨"t", 1, "c", 8⟩, ⟨"t", 1, "c", 2⟩, ⟨"t", 1, "c", 9⟩,
   ⟨"t", 1, "c", 4⟩, ⟨"t", 1, "c", 6⟩]

/-! ## Shared lemmas -/

/-- Sorting by price permutes the listing list. -/
lemma sortedByPrice_perm (l : List TicketListing) : (sortedByPrice l).Perm l :=
  List.perm_insertionSort _ l

/-- Sorting by price preserves the length. -/
lemma sortedByPrice_length (l : List TicketListing) :
    (sortedByPrice l).length = l.length :=
  (sortedByPrice_perm l).length_eq

/-- Sorting by price yields the empty list exactly on the empty list. -/
lemma sortedByPrice_eq_nil (l : List TicketListing) :
    sortedByPrice l = [] ↔ l = [] := by
  constructor
  · intro h
    have := sortedByPrice_length l
    rw [h] at this
    exact List.length_eq_zero.mp this.symm
  · intro h
    subst h
    rfl

/-- Sorting by price preserves the multiset of prices, hence their sum. -/
lemma sortedByPrice_price_sum (l : List TicketListing) :
    ((sortedByPrice l).map (·.price)).sum = (l.map (·.price)).sum :=
  ((sortedByPrice_perm l).map (·.price)).sum_eq

/-- Unfolding equation for the extractor loop on a cons cell. -/
lemma extractLoop_cons (c : Container) (rest : List Container) :
    extractLoop (c :: rest) =
      if c.spans.length = 4 then
        match parseAvailability (c.spans.getD 1 "") with
        | none => []
        | some a =>
          match parsePrice (c.spans.getD 3 "") with
          | none => []
          | some p =>
            { type := c.spans.getD 0 "", availability := a,
              category := c.spans.getD 2 "", price := p } :: extractLoop rest
      else extractLoop rest := rfl

/-- If every container in `pre` is processed without raising and `bad`
raises, the loop's result over `pre ++ bad :: post` is exactly the
result over `pre`: the failure aborts the loop before any of `post`. -/
lemma extractLoop_stops (pre : List Container) (bad : Container)
    (post : List Container)
    (hpre : ∀ c ∈ pre, containerOk c = true) (hbad : containerFails bad = true) :
    extractLoop (pre ++ bad :: post) = extractLoop pre := by
  unfold containerFails at hbad
  rw [Bool.and_eq_true, beq_iff_eq, Bool.or_eq_true] at hbad
  obtain ⟨h4, hfail⟩ := hbad
  induction pre with
  | nil =>
    rw [List.nil_append, extractLoop_cons, if_pos h4]
    cases ha : parseAvailability (bad.spans.getD 1 "") with
    | none => rfl
    | some a =>
      have hp : parsePrice (bad.spans.getD 3 "") = none := by
        rcases hfail with h | h
        · rw [ha] at h
          simp at h
        · exact Option.isNone_iff_eq_none.mp h
      rw [hp]
      rfl
  | cons hd tl ih =>
    have hok := hpre hd (by simp)
    have ih2 := ih (fun c hc => hpre c (by simp [hc]))
    unfold containerOk at hok
    rw [Bool.or_eq_true] at hok
    rw [List.cons_append, extractLoop_cons]
    by_cases hl : hd.spans.length = 4
    · rcases hok with hne | hboth
      · rw [bne_iff_ne] at hne
        exact absurd hl hne
      · rw [Bool.and_eq_true] at hboth
        obtain ⟨a, ha⟩ := Option.isSome_iff_exists.mp hboth.1
        obtain ⟨p, hp⟩ := Option.isSome_iff_exists.mp hboth.2
        rw [extractLoop_cons hd tl, if_pos hl, if_pos hl]
        simp [ha, hp, ih2]
    · rw [extractLoop_cons hd tl, if_neg hl, if_neg hl]
      exact ih2

/-! ## Claims -/

/-- C6: `parsePrice` strips the euro sign and the phrase "per stuk",
replaces the comma by a decimal point, trims whitespace, and parses the
remainder as a decimal, so that it maps "€ 12,50 per stuk" to 12.50; on
malformed input it fails (the `ValueError` modelled by `none`). -/
theorem spec_C6_parsePrice :
    (∀ s : String, parsePrice s =
      pyFloat? (pyStrip (pyReplace (pyReplace (pyReplace s "€" "") "per stuk" "") "," "."))) ∧
    parsePrice "€ 12,50 per stuk" = some (12.50 : ℚ) ∧
    parsePrice "€ abc per stuk" = none ∧
    parsePrice "" = none := by
  refine ⟨fun _ => rfl, ?_, by decide, by decide⟩
  have hd : decomposeFloat (pyStrip (pyReplace (pyReplace (pyReplace
      "€ 12,50 per stuk" "€" "") "per stuk" "") "," ".")).toList =
      some (false, ['1', '2'], ['5', '0']) := by decide
  have n1 : digitsToNat ['1', '2'] = 12 := by decide
  have n2 : digitsToNat ['5', '0'] = 50 := by decide
  rw [show parsePrice "€ 12,50 per stuk" =
    (decomposeFloat (pyStrip (pyReplace (pyReplace (pyReplace
      "€ 12,50 per stuk" "€" "") "per stuk" "") "," ".")).toList).map
      (fun p => ratOfParts p.1 p.2.1 p.2.2) from rfl, hd]
  simp only [Option.map_some, ratOfParts]
  norm_num [n1, n2]

/-- C7: `parseAvailability` strips the unit word "beschikbaar"
case-insensitively together with surrounding whitespace, and returns the
base-10 integer value of the remainder; it fails exactly when that
remainder is not a valid base-10 integer. -/
theorem spec_C7_parseAvailability :
    (∀ s : String, parseAvailability s =
      pyInt? (pyStrip (pyReplace (pyLower s) "beschikbaar" ""))) ∧
    (∀ s : String, parseAvailability s = none ↔
      pyInt? (pyStrip (pyReplace (pyLower s) "beschikbaar" "")) = none) ∧
    parseAvailability "5 beschikbaar" = some 5 ∧
    parseAvailability "5 BESCHIKBAAR" = some 5 ∧
    parseAvailability "abc" = none :=
  ⟨fun _ => rfl, fun _ => Iff.rfl, by decide, by decide, by decide⟩

/-- C8: the notifier performs zero network calls on an empty credential
list, attempts exactly the valid (non-blank, non-placeholder) tokens in
order, the attempted set never depends on the delivery outcomes, every
valid token in the list is attempted, and one valid plus one placeholder
token yields exactly one call. -/
theorem spec_C8_notifier :
    (∀ outcome, notifierRun outcome [] = []) ∧
    (∀ outcome tokens,
      (notifierRun outcome tokens).map Prod.fst = notifierCalls tokens) ∧
    (∀ o₁ o₂ tokens,
      (notifierRun o₁ tokens).map Prod.fst = (notifierRun o₂ tokens).map Prod.fst) ∧
    (∀ outcome tokens t, t ∈ tokens → validToken t = true →
      (t, outcome t) ∈ notifierRun outcome tokens) ∧
    (∀ outcome,
      (notifierRun outcome ["o.AbCdEf123", "YOUR_PUSHBULLET_ACCESS_TOKEN_1"]).length = 1) := by
  have hmap : ∀ outcome tokens,
      (notifierRun outcome tokens).map Prod.fst = notifierCalls tokens := by
    intro o ts
    cases ts with
    | nil => rfl
    | cons h t =>
      show (((h :: t).filter validToken).map (fun t => (t, o t))).map Prod.fst
          = (h :: t).filter validToken
      rw [List.map_map]
      have hcomp : (Prod.fst ∘ fun t : String => (t, o t)) = id := funext fun _ => rfl
      rw [hcomp, List.map_id]
  refine ⟨fun _ => rfl, hmap, fun o₁ o₂ ts => (hmap o₁ ts).trans (hmap o₂ ts).symm,
    ?_, ?_⟩
  · intro o ts t ht hv
    cases ts with
    | nil => cases ht
    | cons h tl =>
      show (t, o t) ∈ ((h :: tl).filter validToken).map (fun t => (t, o t))
      exact List.mem_map.mpr ⟨t, List.mem_filter.mpr ⟨ht, hv⟩, rfl⟩
  · intro o
    have h1 : validToken "o.AbCdEf123" = true := by decide
    have h2 : validToken "YOUR_PUSHBULLET_ACCESS_TOKEN_1" = false := by decide
    simp [notifierRun, List.filter, h1, h2]

/-- Witness for C8 at concrete inputs: with a placeholder first and a
valid token second, the valid token is still attempted. -/
theorem spec_C8_notifier_witness :
    ("o.AbCdEf123", DeliveryResult.success) ∈
      notifierRun (fun _ => DeliveryResult.success)
        ["YOUR_PUSHBULLET_ACCESS_TOKEN_1", "o.AbCdEf123"] :=
  spec_C8_notifier.2.2.2.1 (fun _ => DeliveryResult.success) _ _
    (by decide) (by decide)

/-- C9: the log appender writes the header exactly once, and only when
the file did not exist before the run: a first run on a non-existent
file writes the header plus one data row, and every later run appends
exactly one data row with no duplicate header. -/
theorem spec_C9_logAppend (ts1 ts2 : String) (s1 s2 : RunSummary)
    (lines : List CsvLine) :
    appendLog none ts1 s1 = [CsvLine.header, CsvLine.row ts1 s1] ∧
    appendLog (some lines) ts2 s2 = lines ++ [CsvLine.row ts2 s2] ∧
    appendLog (some (appendLog none ts1 s1)) ts2 s2 =
      [CsvLine.header, CsvLine.row ts1 s1, CsvLine.row ts2 s2] ∧
    (appendLog (some (appendLog none ts1 s1)) ts2 s2).count CsvLine.header = 1 := by
  refine ⟨rfl, rfl, rfl, ?_⟩
  simp [appendLog, List.count_cons]

/-- C10: if parsing the availability or price text of the k-th listing
container fails, the extractor loop stops: it returns only the listings
assembled from the containers before k, the failing container
contributes no record, and the containers after k are never examined —
the result is the same whatever follows the failing container. -/
theorem spec_C10_extractAbort (pre : List Container) (bad : Container)
    (post post2 : List Container)
    (hpre : ∀ c ∈ pre, containerOk c = true) (hbad : containerFails bad = true) :
    extractLoop (pre ++ bad :: post) = extractLoop pre ∧
    extractLoop (pre ++ bad :: post) = extractLoop (pre ++ bad :: post2) :=
  ⟨extractLoop_stops pre bad post hpre hbad,
    (extractLoop_stops pre bad post hpre hbad).trans
      (extractLoop_stops pre bad post2 hpre hbad).symm⟩

/-- Witness for C10 at concrete inputs: a well-formed container, then
one whose price text "€1.000,00" has a '.' thousands separator (two
dots after comma normalization, so `float` raises), then another
well-formed container that is never reached. -/
theorem spec_C10_extractAbort_witness :
    extractLoop
      [⟨["Zitplaats", "5 beschikbaar", "Categorie 1", "€ 12,50 per stuk"]⟩,
       ⟨["Zitplaats", "2 beschikbaar", "Categorie 2", "€1.000,00"]⟩,
       ⟨["Zitplaats", "3 beschikbaar", "Categorie 3", "€ 99,00 per stuk"]⟩] =
      extractLoop [⟨["Zitplaats", "5 beschikbaar", "Categorie 1", "€ 12,50 per stuk"]⟩] :=
  (spec_C10_extractAbort
    [⟨["Zitplaats", "5 beschikbaar", "Categorie 1", "€ 12,50 per stuk"]⟩]
    ⟨["Zitplaats", "2 beschikbaar", "Categorie 2", "€1.000,00"]⟩
    [⟨["Zitplaats", "3 beschikbaar", "Categorie 3", "€ 99,00 per stuk"]⟩] []
    (by decide) (by decide)).1

/-- C4: after the price-ascending sort, the cheapest price is the first
sorted element's price (absent exactly on the empty list), the most
expensive is the last sorted element's price (absent exactly on the
empty list), and the 5th/10th cheapest fields are the prices at sorted
indices 4/9 when the list has at least 5/10 elements, else absent. -/
theorem spec_C4_sortedFields (l : List TicketListing) :
    (summarize l).cheapest_price = (sortedByPrice l).head?.map (·.price) ∧
    ((summarize l).cheapest_price = none ↔ l = []) ∧
    (summarize l).most_expensive_price = (sortedByPrice l).getLast?.map (·.price) ∧
    ((summarize l).most_expensive_price = none ↔ l = []) ∧
    (summarize l).price_5th_cheapest =
      (if 5 ≤ l.length then ((sortedByPrice l)[4]?).map (·.price) else none) ∧
    (summarize l).price_10th_cheapest =
      (if 10 ≤ l.length then ((sortedByPrice l)[9]?).map (·.price) else none) := by
  have hlen := sortedByPrice_length l
  refine ⟨?_, ?_, ?_, ?_, ?_, ?_⟩
  · by_cases h : 0 < (sortedByPrice l).length
    · simp [summarize, h, List.head?_eq_getElem?]
    · have h0 : sortedByPrice l = [] := by
        rw [← List.length_eq_zero]
        omega
      simp [summarize, h, h0]
  · by_cases h : l = []
    · subst h
      simp [summarize, sortedByPrice, List.insertionSort]
    · have hp : 0 < (sortedByPrice l).length := by
        rw [hlen]
        exact List.length_pos.mpr h
      simp [summarize, hp, List.getElem?_eq_getElem hp, h]
  · by_cases h : 0 < (sortedByPrice l).length
    · simp [summarize, h, List.getLast?_eq_getElem?]
    · have h0 : sortedByPrice l = [] := by
        rw [← List.length_eq_zero]
        omega
      simp [summarize, h, h0]
  · by_cases h : l = []
    · subst h
      simp [summarize, sortedByPrice, List.insertionSort]
    · have hp : 0 < (sortedByPrice l).length := by
        rw [hlen]
        exact List.length_pos.mpr h
      have hi : (sortedByPrice l).length - 1 < (sortedByPrice l).length := by omega
      simp [summarize, hp, List.getElem?_eq_getElem hi, h]
  · simp [summarize, hlen]
  · simp [summarize, hlen]

/-- C5: the 10-cheapest average is the mean of the prices of the first
min(10, n) sorted elements rounded to 2 decimal places, and the
all-tickets average is the mean of all prices rounded to 2 decimal
places; both are absent exactly when n = 0; for exactly 10 listings
with prices 1..10 both averages equal 5.5. -/
theorem spec_C5_averages (l : List TicketListing) :
    ((summarize l).average_price_10_cheapest = none ↔ l.length = 0) ∧
    ((summarize l).average_price_all_tickets = none ↔ l.length = 0) ∧
    (l ≠ [] →
      (summarize l).average_price_10_cheapest =
        some (pyRound2 ((((sortedByPrice l).take (min 10 l.length)).map (·.price)).sum /
          (min 10 l.length : ℚ)))) ∧
    (l ≠ [] →
      (summarize l).average_price_all_tickets =
        some (pyRound2 ((l.map (·.price)).sum / (l.length : ℚ)))) ∧
    (summarize tenListings).average_price_10_cheapest = some (11 / 2) ∧
    (summarize tenListings).average_price_all_tickets = some (11 / 2) := by
  have h10 : ∀ m : List TicketListing, m ≠ [] →
      (summarize m).average_price_10_cheapest =
        some (pyRound2 ((((sortedByPrice m).take (min 10 m.length)).map (·.price)).sum /
          (min 10 m.length : ℚ))) := by
    intro m hm
    have hlenm := sortedByPrice_length m
    have hp : 0 < (sortedByPrice m).length := by
      rw [hlenm]
      exact List.length_pos.mpr hm
    have hlentake : (((sortedByPrice m).take 10).length : ℚ) = (min 10 m.length : ℚ) := by
      norm_cast
      rw [List.length_take, hlenm]
    have htake : (sortedByPrice m).take 10 = (sortedByPrice m).take (min 10 m.length) := by
      rcases le_or_lt m.length 10 with hle | hlt
      · rw [min_eq_right hle, List.take_of_length_le (by omega), ← hlenm, List.take_length]
      · rw [min_eq_left (by omega)]
    have hfield : (summarize m).average_price_10_cheapest =
        some (pyRound2 ((((sortedByPrice m).take 10).map (·.price)).sum /
          (((sortedByPrice m).take 10).length : ℚ))) := by
      simp [summarize, hp]
    rw [hfield, hlentake, htake]
  have hall : ∀ m : List TicketListing, m ≠ [] →
      (summarize m).average_price_all_tickets =
        some (pyRound2 ((m.map (·.price)).sum / (m.length : ℚ))) := by
    intro m hm
    have hlenm := sortedByPrice_length m
    have hp : 0 < (sortedByPrice m).length := by
      rw [hlenm]
      exact List.length_pos.mpr hm
    have hfield : (summarize m).average_price_all_tickets =
        some (pyRound2 (((sortedByPrice m).map (·.price)).sum /
          (((sortedByPrice m).length : ℕ) : ℚ))) := by
      simp [summarize, hp]
    rw [hfield, sortedByPrice_price_sum, hlenm]
  have hfl : ⌊(550 : ℚ)⌋ = 550 := by norm_num
  have hrhe : roundHalfEven 550 = 550 := by
    norm_num [roundHalfEven, hfl]
  have hround : pyRound2 ((11 : ℚ) / 2) = 11 / 2 := by
    have h550 : (11 : ℚ) / 2 * 100 = 550 := by norm_num
    rw [pyRound2, h550, hrhe]
    norm_num
  have hsum10 : (tenListings.map (·.price)).sum = 55 := by
    simp [tenListings]
    norm_num
  refine ⟨?_, ?_, h10 l, hall l, ?_, ?_⟩
  · by_cases h : l = []
    · subst h
      simp [summarize, sortedByPrice, List.insertionSort]
    · have hp : 0 < (sortedByPrice l).length := by
        rw [sortedByPrice_length]
        exact List.length_pos.mpr h
      simp [summarize, hp, List.length_eq_zero, h]
  · by_cases h : l = []
    · subst h
      simp [summarize, sortedByPrice, List.insertionSort]
    · have hp : 0 < (sortedByPrice l).length := by
        rw [sortedByPrice_length]
        exact List.length_pos.mpr h
      simp [summarize, hp, List.length_eq_zero, h]
  · rw [h10 tenListings (by simp [tenListings])]
    have e1 : min 10 tenListings.length = 10 := rfl
    have e2 : (sortedByPrice tenListings).take 10 = sortedByPrice tenListings :=
      List.take_of_length_le (by rw [sortedByPrice_length]; decide)
    rw [e1, e2]
    rw [show ((sortedByPrice tenListings).map (·.price)).sum = 55 from
      (sortedByPrice_price_sum tenListings).trans hsum10]
    have e4 : ((tenListings.length : ℕ) : ℚ) = 10 := by norm_num [tenListings]
    rw [e4]
    norm_num [hround]
  · rw [hall tenListings (by simp [tenListings])]
    rw [hsum10]
    have e3 : ((tenListings.length : ℕ) : ℚ) = 10 := by
      norm_num [tenListings]
    rw [e3]
    norm_num [hround]

/-- Witness for C5 at a concrete input: a singleton list, whose averages
are defined and equal its rounded single price. -/
theorem spec_C5_averages_witness :
    (summarize [stdListing]).average_price_10_cheapest =
      some (pyRound2 ((((sortedByPrice [stdListing]).take
        (min 10 ([stdListing] : List TicketListing).length)).map (·.price)).sum /
          (min 10 ([stdListing] : List TicketListing).length : ℚ))) ∧
    (summarize [stdListing]).average_price_all_tickets =
      some (pyRound2 ((([stdListing] : List TicketListing).map (·.price)).sum /
        (([stdListing] : List TicketListing).length : ℚ))) :=
  ⟨(spec_C5_averages [stdListing]).2.2.1 (by simp),
   (spec_C5_averages [stdListing]).2.2.2.1 (by simp)⟩

/-- C3: the notifier is invoked exactly when the scraped list is
non-empty and the cheapest price is strictly below the 300.0 threshold;
with no listings, or a cheapest price at or above the threshold, no
notification attempt is made. -/
theorem spec_C3_alertCondition (outcome : String → DeliveryResult)
    (tokens : List String) (scraped : List TicketListing) (ts : String)
    (file : Option (List CsvLine)) :
    (mainRun outcome tokens scraped ts file).notifierInvoked = true ↔
      (scraped ≠ [] ∧ ∃ c, (summarize scraped).cheapest_price = some c ∧
        c < PRICE_ALERT_THRESHOLD) := by
  cases scraped with
  | nil => simp [mainRun]
  | cons h t =>
    have hp : 0 < (sortedByPrice (h :: t)).length := by
      rw [sortedByPrice_length]
      simp
    obtain ⟨x, xs, hx⟩ : ∃ x xs, sortedByPrice (h :: t) = x :: xs := by
      cases hs : sortedByPrice (h :: t) with
      | nil =>
        rw [hs] at hp
        simp at hp
      | cons a b => exact ⟨a, b, rfl⟩
    by_cases hc : x.price < PRICE_ALERT_THRESHOLD
    · simp [mainRun, summarize, hx, hc]
    · simp [mainRun, summarize, hx, hc]

/-- Counterexample to C1 as stated: on a run whose extraction produced
an empty list, no RunSummary is produced at all and nothing is appended
to the log store (a first run leaves the file non-existent), contrary
to the claim that a zero summary is produced and one row is appended. -/
theorem spec_C1_emptyRun_counterexample :
    (mainRun (fun _ => DeliveryResult.success) [] [] "2025-08-01 12:00:00" none).summary
      = none ∧
    (mainRun (fun _ => DeliveryResult.success) [] [] "2025-08-01 12:00:00" none).file
      = none :=
  ⟨rfl, rfl⟩

/-- C1 amended: the Summarizer and Log Appender run exactly when the
Ticket Extractor returned a non-empty list — then one summary is built
and exactly one row is appended; on an empty list the whole processing
block (Summarizer, Notifier and Log Appender) is skipped, so no summary
is produced, no notification happens and the log store is untouched. -/
theorem spec_C1_amended_runEffects (outcome : String → DeliveryResult)
    (tokens : List String) (scraped : List TicketListing) (ts : String)
    (file : Option (List CsvLine)) :
    (scraped ≠ [] →
      (mainRun outcome tokens scraped ts file).summary = some (summarize scraped) ∧
      (mainRun outcome tokens scraped ts file).file =
        some (appendLog file ts (summarize scraped))) ∧
    (scraped = [] →
      (mainRun outcome tokens scraped ts file).summary = none ∧
      (mainRun outcome tokens scraped ts file).notifications = [] ∧
      (mainRun outcome tokens scraped ts file).file = file) := by
  cases scraped with
  | nil => exact ⟨fun hne => absurd rfl hne, fun _ => ⟨rfl, rfl, rfl⟩⟩
  | cons h t =>
    refine ⟨fun _ => ?_, fun hc => absurd hc (List.cons_ne_nil h t)⟩
    by_cases hch : (sortedByPrice (h :: t)).headI.price < PRICE_ALERT_THRESHOLD
    · constructor <;> simp [mainRun, hch]
    · constructor <;> simp [mainRun, hch]

/-- Witness for the amended C1 at a concrete non-empty scrape. -/
theorem spec_C1_amended_runEffects_witness :
    (mainRun (fun _ => DeliveryResult.success) [] [stdListing]
      "2025-08-01 12:00:00" none).summary = some (summarize [stdListing]) ∧
    (mainRun (fun _ => DeliveryResult.success) [] [stdListing]
      "2025-08-01 12:00:00" none).file =
      some (appendLog none "2025-08-01 12:00:00" (summarize [stdListing])) :=
  (spec_C1_amended_runEffects (fun _ => DeliveryResult.success) [] [stdListing]
    "2025-08-01 12:00:00" none).1 (by simp)

/-- Counterexample to C2 as stated: an unparsable value of
`PUSHBULLET_TOKENS_JSON` does not degrade to an empty token list — the
bare `json.loads` call raises and the process terminates with an error,
so the condition alone is fatal. -/
theorem spec_C2_unparsable_counterexample :
    loadTokens (some "not json") = Except.error () :=
  rfl

/-- C2 amended: an absent (or empty) `PUSHBULLET_TOKENS_JSON` yields the
empty token list with no error, and a well-formed JSON array of strings
yields those tokens; a present but unparsable value makes the uncaught
`json.loads` exception terminate the process (it fails fast rather than
degrading). -/
theorem spec_C2_amended_tokenLoad :
    loadTokens none = Except.ok [] ∧
    loadTokens (some "") = Except.ok [] ∧
    loadTokens (some "[]") = Except.ok [] ∧
    loadTokens (some "[\"o.AbCdEf123\", \"o.XyZ987\"]") =
      Except.ok ["o.AbCdEf123", "o.XyZ987"] ∧
    loadTokens (some "not json") = Except.error () ∧
    loadTokens (some "[\"o.unclosed") = Except.error () :=
  ⟨rfl, rfl, rfl, rfl, rfl, rfl⟩
